import Mathlib

/-!
Shallow embedding of `src/main.cpp` (RopInCpp): a generic success/failure
result abstraction (`Result`), a mutable variant with a shared payload cell
(`MutableResult`), and the illustrative manuscript-publishing pipeline.

Modelling conventions:
* The C++ class `Result<ValueType, ErrorType>` stores both slots plus a tag
  (`mIsSuccess`, `mValue`, `mError`); the unused slot is value-initialized
  (`mValue()` / `mError()`), which we render as `default` of an `Inhabited`
  instance chosen to match C++ value initialization (0 for integers, the
  empty string, the empty vector, `false`).
* `std::shared_ptr<ValueType>` becomes an `Option Nat` address into an
  explicit heap `Heap V`; `nullptr` is `none`.  Methods that mutate through
  the pointer thread the heap.  Dereferencing a null `shared_ptr`
  (`*mValue` in `MutableResult::Value` when `mValue == nullptr`) is
  undefined behavior in C++; the model returns `none` there.
* `std::time(nullptr)` is an external input; each pipeline stage takes the
  time it would observe as an explicit argument.
* C++ functions whose only observable behavior in a call to `Bind` /
  `InPlaceBind` / `ReadOnlyBind` is "was the callback invoked, and how many
  times" are accounted for by companion `...Count` definitions that count,
  following the source's branches, how many times the callback is called.
-/

/-- `Result<ValueType, ErrorType>` from `main.cpp` lines 7-69: a tag plus
both payload slots; the slot not selected by the factory is
value-initialized (`default`). -/
structure Result (ValueType ErrorType : Type) where
  mIsSuccess : Bool
  mValue : ValueType
  mError : ErrorType
deriving Repr, DecidableEq

/-- `Result::Success` (lines 10-14): success-tagged, holds `value`,
`mError` value-initialized. -/
def Result.Success {V E : Type} [Inhabited E] (value : V) : Result V E :=
  ⟨true, value, default⟩

/-- `Result::Failure` (lines 15-19): failure-tagged, holds `error`,
`mValue` value-initialized. -/
def Result.Failure {V E : Type} [Inhabited V] (error : E) : Result V E :=
  ⟨false, default, error⟩

/-- `Result::Bind`: on success apply `func` to the held value; on failure
return a fresh failure carrying the same error.  The source has two
overloads (lines 22-30 with an explicit `std::function`, lines 33-43 with
a deduced callable); both branch identically, so one definition embeds
both. -/
def Result.Bind {V E U : Type} [Inhabited U] (r : Result V E)
    (func : V → Result U E) : Result U E :=
  if r.mIsSuccess then func r.mValue else Result.Failure r.mError

/-- Number of times `Result::Bind` (lines 33-43) invokes `func` during one
call: once in the success branch (line 39), never in the failure branch
(line 41). -/
def Result.BindCount {V E U : Type} (r : Result V E)
    (_func : V → Result U E) : Nat :=
  if r.mIsSuccess then 1 else 0

/-- `Result::IsSuccess` (line 46). -/
def Result.IsSuccess {V E : Type} (r : Result V E) : Bool :=
  r.mIsSuccess

/-- `Result::Value` (line 47): returns `mValue` unconditionally. -/
def Result.Value {V E : Type} (r : Result V E) : V :=
  r.mValue

/-- `Result::Error` (line 48): returns `mError` unconditionally. -/
def Result.Error {V E : Type} (r : Result V E) : E :=
  r.mError

/-- Explicit heap modelling `std::shared_ptr` allocations: a total store
of cells indexed by `Nat` plus the next fresh address.  `Heap.mem` is
total, so a read at any address yields a value; null pointers are kept
apart via `Option Nat` on the pointer side. -/
structure Heap (V : Type) where
  mem : Nat → V
  next : Nat

/-- The empty heap: no allocation has happened yet. -/
def Heap.empty {V : Type} [Inhabited V] : Heap V :=
  ⟨fun _ => default, 0⟩

/-- `std::make_shared<ValueType>(value)`: allocate a fresh cell holding
`value`, returning the new heap and the cell's address. -/
def Heap.alloc {V : Type} (h : Heap V) (value : V) : Heap V × Nat :=
  (⟨fun a => if a = h.next then value else h.mem a, h.next + 1⟩, h.next)

/-- Write `value` into the cell at address `a`. -/
def Heap.write {V : Type} (h : Heap V) (a : Nat) (value : V) : Heap V :=
  ⟨fun i => if i = a then value else h.mem i, h.next⟩

/-- `MutableResult<ValueType, ErrorType>` from `main.cpp` lines 71-121:
`mValue : ValuePtr` is a `shared_ptr` (here: an optional heap address,
`none` for `nullptr`), `mError` is held by value, `mIsSuccess` is the
tag. -/
structure MutableResult (ValueType ErrorType : Type) where
  mValue : Option Nat
  mError : ErrorType
  mIsSuccess : Bool
deriving Repr, DecidableEq

/-- `MutableResult::Success` (lines 76-79): copies `value` into a newly
allocated shared cell; the error slot gets `{}` (value initialization,
rendered as `default`).  Threads the heap. -/
def MutableResult.Success {V E : Type} [Inhabited E] (h : Heap V)
    (value : V) : MutableResult V E × Heap V :=
  let alloc := h.alloc value
  (⟨some alloc.2, default, true⟩, alloc.1)

/-- `MutableResult::Failure` (lines 81-84): failure-tagged, null value
pointer, holds `error`.  Allocates nothing. -/
def MutableResult.Failure {V E : Type} (error : E) : MutableResult V E :=
  ⟨none, error, false⟩

/-- `MutableResult::InPlaceBind` (lines 87-94): if success-tagged and the
pointer is non-null, invoke `func` on a mutable reference to the cell's
contents (modelled: the cell is overwritten with `func` of its contents);
return `*this` (the receiver, unchanged in all members) and the updated
heap. -/
def MutableResult.InPlaceBind {V E : Type} (m : MutableResult V E)
    (h : Heap V) (func : V → V) : MutableResult V E × Heap V :=
  if m.mIsSuccess then
    match m.mValue with
    | some a => (m, h.write a (func (h.mem a)))
    | none => (m, h)
  else (m, h)

/-- Number of times `MutableResult::InPlaceBind` (lines 87-94) invokes
`func` during one call: once when success-tagged with a non-null pointer
(line 91), never otherwise. -/
def MutableResult.InPlaceBindCount {V E : Type} (m : MutableResult V E)
    (_func : V → V) : Nat :=
  if m.mIsSuccess ∧ m.mValue.isSome then 1 else 0

/-- `MutableResult::ReadOnlyBind` (lines 96-103): same dispatch as
`InPlaceBind` but `func` receives a `const` reference, so it can only
read the cell; its side effects land in an external state `S` (e.g. a
log).  It is a `const` method returning `*this`: the receiver and the
heap come back unchanged alongside the updated external state. -/
def MutableResult.ReadOnlyBind {V E S : Type} (m : MutableResult V E)
    (h : Heap V) (func : V → S → S) (s : S) :
    (MutableResult V E × Heap V) × S :=
  if m.mIsSuccess then
    match m.mValue with
    | some a => ((m, h), func (h.mem a) s)
    | none => ((m, h), s)
  else ((m, h), s)

/-- Number of times `MutableResult::ReadOnlyBind` (lines 96-103) invokes
`func` during one call: once when success-tagged with a non-null pointer
(line 100), never otherwise. -/
def MutableResult.ReadOnlyBindCount {V E : Type} (m : MutableResult V E) :
    Nat :=
  if m.mIsSuccess ∧ m.mValue.isSome then 1 else 0

/-- `MutableResult::Value` (line 106): `*mValue`, an unconditional
dereference of the shared pointer.  Dereferencing a null `shared_ptr` is
undefined behavior in C++; the model returns `none` in that case and
`some` of the cell's contents otherwise. -/
def MutableResult.Value {V E : Type} (m : MutableResult V E) (h : Heap V) :
    Option V :=
  m.mValue.map h.mem

/-- `MutableResult::Error` (line 107): returns `mError`
unconditionally. -/
def MutableResult.Error {V E : Type} (m : MutableResult V E) : E :=
  m.mError

/-- `MutableResult::IsSuccess` (line 108). -/
def MutableResult.IsSuccess {V E : Type} (m : MutableResult V E) : Bool :=
  m.mIsSuccess

/-- The null-pointer/tag correspondence for `MutableResult`: the shared
cell is non-null exactly when the instance is success-tagged. -/
def MutableResult.Inv {V E : Type} (m : MutableResult V E) : Prop :=
  m.mValue.isSome = m.mIsSuccess

instance {V E : Type} (m : MutableResult V E) : Decidable m.Inv := by
  unfold MutableResult.Inv
  infer_instance

/-- `Manuscript` (lines 123-129).  `int` is `Int`, `std::time_t` is
`Int`; the derived `Inhabited` (0, empty string) matches C++ value
initialization of the aggregate. -/
structure Manuscript where
  id : Int
  title : String
  content : String
  author : String
  submission_date : Int
deriving Repr, DecidableEq, Inhabited

/-- `EditedManuscript` (lines 131-138). -/
structure EditedManuscript where
  id : Int
  title : String
  content : String
  author : String
  editorial_notes : List String
  edit_date : Int
deriving Repr, DecidableEq, Inhabited

/-- `FormattedManuscript` (lines 140-147). -/
structure FormattedManuscript where
  id : Int
  title : String
  formatted_content : String
  author : String
  format_type : String
  format_date : Int
deriving Repr, DecidableEq, Inhabited

/-- `ReviewedManuscript` (lines 149-157). -/
structure ReviewedManuscript where
  id : Int
  title : String
  formatted_content : String
  author : String
  approved : Bool
  review_comments : List String
  review_date : Int
deriving Repr, DecidableEq, Inhabited

/-- `PublishedManuscript` (lines 159-166). -/
structure PublishedManuscript where
  id : Int
  title : String
  formatted_content : String
  author : String
  isbn : String
  publish_date : Int
deriving Repr, DecidableEq, Inhabited

/-- `FetchManuscript` (lines 168-182).  `now` is the value
`std::time(nullptr)` would return during this call. -/
def FetchManuscript (now : Int) (manuscriptId : Int) :
    Result Manuscript String :=
  if manuscriptId ≤ 0 then
    Result.Failure "Invalid manuscript ID"
  else
    Result.Success
      { id := manuscriptId
        title := "The Art of Programming"
        content := "Initial content..."
        author := "John Doe"
        submission_date := now }

/-- `EditManuscript` (lines 184-199). -/
def EditManuscript (now : Int) (m : Manuscript) :
    Result EditedManuscript String :=
  if m.content = "" then
    Result.Failure "Empty manuscript content"
  else
    Result.Success
      { id := m.id
        title := m.title
        content := m.content ++ "\nEdited content..."
        author := m.author
        editorial_notes := ["Fixed grammar", "Improved structure"]
        edit_date := now }

/-- `FormatManuscript` (lines 201-216). -/
def FormatManuscript (now : Int) (em : EditedManuscript) :
    Result FormattedManuscript String :=
  if em.editorial_notes = [] then
    Result.Failure "No editorial notes found"
  else
    Result.Success
      { id := em.id
        title := em.title
        formatted_content := em.content ++ "\nFormatted according to style guide..."
        author := em.author
        format_type := "IEEE"
        format_date := now }

/-- `ReviewManuscript` (lines 218-234). -/
def ReviewManuscript (now : Int) (fm : FormattedManuscript) :
    Result ReviewedManuscript String :=
  if fm.format_type ≠ "IEEE" then
    Result.Failure "Invalid format type"
  else
    Result.Success
      { id := fm.id
        title := fm.title
        formatted_content := fm.formatted_content
        author := fm.author
        approved := true
        review_comments := ["Excellent work", "Ready for publication"]
        review_date := now }

/-- `PublishManuscript` (lines 236-251). -/
def PublishManuscript (now : Int) (rm : ReviewedManuscript) :
    Result PublishedManuscript String :=
  if !rm.approved then
    Result.Failure "Manuscript not approved"
  else
    Result.Success
      { id := rm.id
        title := rm.title
        formatted_content := rm.formatted_content
        author := rm.author
        isbn := "ISBN-" ++ toString rm.id ++ "-2023"
        publish_date := now }

/-- The publishing pipeline of `main` (lines 259-263): fetch, then chain
edit, format, review, publish through `Bind`.  Each stage observes its
own `std::time(nullptr)` value `t1..t5`. -/
def publishingPipeline (t1 t2 t3 t4 t5 : Int) (manuscriptId : Int) :
    Result PublishedManuscript String :=
  ((((FetchManuscript t1 manuscriptId).Bind
      (EditManuscript t2)).Bind
      (FormatManuscript t3)).Bind
      (ReviewManuscript t4)).Bind
      (PublishManuscript t5)

/-- Helper: `InPlaceBind` returns `*this` — the receiver comes back
unchanged in every branch. -/
theorem inPlaceBind_fst {V E : Type} (m : MutableResult V E) (h : Heap V)
    (f : V → V) : (m.InPlaceBind h f).1 = m := by
  unfold MutableResult.InPlaceBind
  split
  · split <;> rfl
  · rfl

/-- Helper: `ReadOnlyBind` is `const` — the receiver and the heap come
back unchanged in every branch. -/
theorem readOnlyBind_fst {V E S : Type} (m : MutableResult V E)
    (h : Heap V) (func : V → S → S) (s : S) :
    (m.ReadOnlyBind h func s).1 = (m, h) := by
  unfold MutableResult.ReadOnlyBind
  split
  · split <;> rfl
  · rfl

/-- C1: Bind on a failure-tagged result short-circuits: it returns a
failure holding exactly the same error without invoking `func`, and in the
chain `Success(x).Bind(f1).Bind(f2).Bind(f3)` where `f1 x` fails with `e`,
the final result is the failure `e` and `f2`, `f3` are invoked zero
times. -/
theorem bind_failure_short_circuit {V E U U2 U3 : Type}
    [Inhabited V] [Inhabited U] [Inhabited U2] [Inhabited U3]
    (r : Result V E) (f : V → Result U E)
    (hfail : r.IsSuccess = false)
    (x : V) (f1 : V → Result U E) (f2 : U → Result U2 E)
    (f3 : U2 → Result U3 E) (e : E) [Inhabited E]
    (h1 : f1 x = Result.Failure e) :
    (r.Bind f = Result.Failure r.Error ∧ Result.BindCount r f = 0) ∧
    ((((Result.Success x).Bind f1).Bind f2).Bind f3 = Result.Failure e ∧
      Result.BindCount ((Result.Success x).Bind f1) f2 = 0 ∧
      Result.BindCount (((Result.Success x).Bind f1).Bind f2) f3 = 0) := by
  have hr : r.mIsSuccess = false := hfail
  have hchain1 : (Result.Success x : Result V E).Bind f1 = Result.Failure e := by
    simp [Result.Bind, Result.Success, h1]
  constructor
  · constructor
    · simp [Result.Bind, hr, Result.Error]
    · simp [Result.BindCount, hr]
  · refine ⟨?_, ?_, ?_⟩
    · rw [hchain1]
      simp [Result.Bind, Result.Failure, Result.BindCount]
    · rw [hchain1]
      simp [Result.BindCount, Result.Failure]
    · rw [hchain1]
      simp [Result.Bind, Result.BindCount, Result.Failure]

/-- Witness for C1 at concrete inputs: `r = Failure "boom"` over
`Nat`-valued steps, chain starting from `Success 7` with `f1` failing. -/
theorem bind_failure_short_circuit_witness :
    ((Result.Failure "boom" : Result Nat String).Bind
        (fun n => Result.Success (n + 1)) =
      Result.Failure "boom" ∧
      Result.BindCount (Result.Failure "boom" : Result Nat String)
        (fun n => (Result.Success (n + 1) : Result Nat String)) = 0) ∧
    ((((Result.Success 7 : Result Nat String).Bind
          (fun _ => (Result.Failure "e1" : Result Nat String))).Bind
        (fun n => (Result.Success (n * 2) : Result Nat String))).Bind
        (fun n => (Result.Success (n + 3) : Result Nat String)) =
      Result.Failure "e1" ∧
      Result.BindCount
        ((Result.Success 7 : Result Nat String).Bind
          (fun _ => (Result.Failure "e1" : Result Nat String)))
        (fun n => (Result.Success (n * 2) : Result Nat String)) = 0 ∧
      Result.BindCount
        (((Result.Success 7 : Result Nat String).Bind
            (fun _ => (Result.Failure "e1" : Result Nat String))).Bind
          (fun n => (Result.Success (n * 2) : Result Nat String)))
        (fun n => (Result.Success (n + 3) : Result Nat String)) = 0) := by
  have h := bind_failure_short_circuit
    (Result.Failure "boom" : Result Nat String)
    (fun n => Result.Success (n + 1)) (by decide)
    7 (fun _ => (Result.Failure "e1" : Result Nat String))
    (fun n => (Result.Success (n * 2) : Result Nat String))
    (fun n => (Result.Success (n + 3) : Result Nat String))
    "e1" rfl
  exact h

/-- C2: Bind on a success-tagged result applies the function to the held
value: `r.Bind f = f r.Value`. -/
theorem bind_success_applies {V E U : Type} [Inhabited U]
    (r : Result V E) (f : V → Result U E)
    (hsucc : r.IsSuccess = true) :
    r.Bind f = f r.Value := by
  have hr : r.mIsSuccess = true := hsucc
  simp [Result.Bind, Result.Value, hr]

/-- Witness for C2 at `r = Success 5`, `f n = Success (toString n)`. -/
theorem bind_success_applies_witness :
    (Result.Success 5 : Result Nat String).Bind
        (fun n => (Result.Success (toString n) : Result String String)) =
      (fun n => (Result.Success (toString n) : Result String String))
        ((Result.Success 5 : Result Nat String)).Value := by
  exact bind_success_applies (Result.Success 5 : Result Nat String)
    (fun n => (Result.Success (toString n) : Result String String)) rfl

/-- C3: on a success-tagged `MutableResult`, `InPlaceBind` applies the
mutation to the shared payload in place, and successive `InPlaceBind`
calls accumulate: starting from `Success v`, after `InPlaceBind f` then
`InPlaceBind g` the original instance reads back `g (f v)` through the
shared cell (for `v = 0`, `f = (+5)`, `g = (*2)` this is `10`). -/
theorem inPlaceBind_accumulates {V E : Type} [Inhabited E]
    (h0 : Heap V) (v : V) (f g : V → V)
    (p : MutableResult V E × Heap V)
    (hp : p = MutableResult.Success h0 v) :
    p.1.Value
      ((p.1.InPlaceBind p.2 f).1.InPlaceBind (p.1.InPlaceBind p.2 f).2 g).2
      = some (g (f v)) ∧
    ((p.1.InPlaceBind p.2 f).1.InPlaceBind (p.1.InPlaceBind p.2 f).2 g).1
      = p.1 := by
  subst hp
  simp [MutableResult.Success, Heap.alloc, MutableResult.InPlaceBind,
    Heap.write, MutableResult.Value]

/-- Witness for C3: the claim's own test, `m = Success 0`,
`InPlaceBind (+5)` then `InPlaceBind (*2)`, read back `10`. -/
theorem inPlaceBind_accumulates_witness :
    (MutableResult.Success Heap.empty 0 :
        MutableResult Nat String × Heap Nat).1.Value
      ((((MutableResult.Success Heap.empty 0 :
              MutableResult Nat String × Heap Nat).1.InPlaceBind
            (MutableResult.Success Heap.empty 0 :
              MutableResult Nat String × Heap Nat).2
            (fun v => v + 5)).1.InPlaceBind
          ((MutableResult.Success Heap.empty 0 :
              MutableResult Nat String × Heap Nat).1.InPlaceBind
            (MutableResult.Success Heap.empty 0 :
              MutableResult Nat String × Heap Nat).2
            (fun v => v + 5)).2
          (fun v => v * 2)).2) = some 10 :=
  (inPlaceBind_accumulates Heap.empty 0 (fun v => v + 5) (fun v => v * 2)
    (MutableResult.Success Heap.empty 0) rfl).1

/-- C4: on a failure-tagged `MutableResult`, `InPlaceBind` is a no-op
that still returns self: the mutation function is invoked zero times, the
instance and the heap are unchanged; in particular `Failure "err"` keeps
`IsSuccess = false` and `Error = "err"` after `InPlaceBind (+5)`. -/
theorem inPlaceBind_failure_noop {V E : Type} (m : MutableResult V E)
    (h : Heap V) (f : V → V) (hfail : m.IsSuccess = false) :
    m.InPlaceBind h f = (m, h) ∧ m.InPlaceBindCount f = 0 ∧
    ((MutableResult.Failure "err" : MutableResult Nat String).InPlaceBind
        Heap.empty (fun v => v + 5)).1.IsSuccess = false ∧
    ((MutableResult.Failure "err" : MutableResult Nat String).InPlaceBind
        Heap.empty (fun v => v + 5)).1.Error = "err" := by
  have hm : m.mIsSuccess = false := hfail
  refine ⟨?_, ?_, rfl, rfl⟩
  · simp [MutableResult.InPlaceBind, hm]
  · simp [MutableResult.InPlaceBindCount, hm]

/-- Witness for C4 at `m = Failure "err"` over `Nat` payloads. -/
theorem inPlaceBind_failure_noop_witness :
    (MutableResult.Failure "err" : MutableResult Nat String).InPlaceBind
        Heap.empty (fun v => v + 5) =
      ((MutableResult.Failure "err" : MutableResult Nat String),
        Heap.empty) ∧
    (MutableResult.Failure "err" : MutableResult Nat String).InPlaceBindCount
        (fun v => v + 5) = 0 :=
  ⟨(inPlaceBind_failure_noop (MutableResult.Failure "err")
      Heap.empty (fun v => v + 5) rfl).1,
    (inPlaceBind_failure_noop (MutableResult.Failure "err")
      Heap.empty (fun v => v + 5) rfl).2.1⟩

/-- C5: `ReadOnlyBind` only inspects: for every instance, heap,
inspection function and external state, the returned instance and the
heap — hence the tag, the error and the success payload's contents — are
exactly the originals. -/
theorem readOnlyBind_frame {V E S : Type} (m : MutableResult V E)
    (h : Heap V) (func : V → S → S) (s : S) :
    (m.ReadOnlyBind h func s).1 = (m, h) :=
  readOnlyBind_fst m h func s

/-- C7: the success/failure tag is immutable after construction: the
factories fix it (`Success` to `true`, `Failure` to `false`), and the
bind-style operations return the receiver with every member — in
particular the tag — unchanged.  (`Result`'s operations are `const` and
modelled as pure functions of an immutable value, so no operation can
change a `Result`'s tag by construction.) -/
theorem tag_immutable {V E S : Type} [Inhabited V] [Inhabited E]
    (m : MutableResult V E) (h : Heap V) (f : V → V)
    (func : V → S → S) (s : S) (v : V) (e : E) :
    (Result.Success v : Result V E).IsSuccess = true ∧
    (Result.Failure e : Result V E).IsSuccess = false ∧
    (m.InPlaceBind h f).1 = m ∧
    ((m.ReadOnlyBind h func s).1).1 = m ∧
    (m.InPlaceBind h f).1.IsSuccess = m.IsSuccess ∧
    ((m.ReadOnlyBind h func s).1).1.IsSuccess = m.IsSuccess := by
  refine ⟨rfl, rfl, ?_, ?_, ?_, ?_⟩
  · exact inPlaceBind_fst m h f
  · exact congrArg Prod.fst (readOnlyBind_fst m h func s)
  · rw [inPlaceBind_fst m h f]
  · rw [congrArg Prod.fst (readOnlyBind_fst m h func s)]

/-- Counterexample to C6 as stated: the claim extends "the accessor for
the wrong tag reads a default-constructed payload" to `MutableResult`'s
accessors, but `MutableResult::Value` on a failure dereferences the null
shared pointer (`*mValue` with `mValue == nullptr`) — there is no
default-constructed payload to read.  Concretely, for
`MutableResult<int, string>::Failure("err")` the model yields no value at
all (`none`), not the default-constructed `0`. -/
theorem value_on_failure_counterexample :
    (MutableResult.Failure "err" : MutableResult Nat String).Value
        Heap.empty = none ∧
    (MutableResult.Failure "err" : MutableResult Nat String).Value
        Heap.empty ≠ some (default : Nat) := by
  exact ⟨rfl, by simp [MutableResult.Failure, MutableResult.Value]⟩

/-- C6 amended: for `Result`, `Value()` on a failure returns the
default-constructed value and `Error()` on a success returns the
default-constructed error; for `MutableResult`, `Error()` on a success
returns the default-constructed error, but `Value()` on a failure
dereferences a null shared pointer (undefined behavior — no payload is
read; modelled as `none`). -/
theorem value_error_default_amended {V E : Type} [Inhabited V] [Inhabited E]
    (v : V) (e : E) (h hp : Heap V) :
    (Result.Failure e : Result V E).Value = default ∧
    (Result.Success v : Result V E).Error = default ∧
    (MutableResult.Success hp v : MutableResult V E × Heap V).1.Error
      = default ∧
    (MutableResult.Failure e : MutableResult V E).Value h = none :=
  ⟨rfl, rfl, rfl, rfl⟩

/-- C8: `FetchManuscript(42)` succeeds and the chain through
`EditManuscript`, `FormatManuscript`, `ReviewManuscript`,
`PublishManuscript` yields a success whose `isbn` is `"ISBN-42-2023"`,
whatever times the stages observe. -/
theorem pipeline_success_isbn (t1 t2 t3 t4 t5 : Int) :
    (FetchManuscript t1 42).IsSuccess = true ∧
    (publishingPipeline t1 t2 t3 t4 t5 42).IsSuccess = true ∧
    (publishingPipeline t1 t2 t3 t4 t5 42).Value.isbn = "ISBN-42-2023" := by
  refine ⟨rfl, ?_, ?_⟩
  · simp [publishingPipeline, FetchManuscript, EditManuscript,
      FormatManuscript, ReviewManuscript, PublishManuscript, Result.Bind,
      Result.Success, Result.IsSuccess, Result.Value]
  · simp only [publishingPipeline, FetchManuscript, EditManuscript,
      FormatManuscript, ReviewManuscript, PublishManuscript, Result.Bind,
      Result.Success, Result.IsSuccess, Result.Value]
    rfl

/-- C9: `FetchManuscript(0)` fails with `"Invalid manuscript ID"`, and
running the remaining pipeline stages on that result leaves the final
result a failure holding exactly that error. -/
theorem pipeline_failure_invalid_id (t1 t2 t3 t4 t5 : Int) :
    FetchManuscript t1 0 = Result.Failure "Invalid manuscript ID" ∧
    (publishingPipeline t1 t2 t3 t4 t5 0).IsSuccess = false ∧
    (publishingPipeline t1 t2 t3 t4 t5 0).Error = "Invalid manuscript ID" :=
  ⟨rfl, rfl, rfl⟩

/-- C10: the cell/tag correspondence `Inv` (cell non-null iff
success-tagged) is established by both factories and preserved by
`InPlaceBind` and `ReadOnlyBind`; consequently on a success-tagged
instance the non-null guard never suppresses the callback (both bind
operations invoke it exactly once) and `Value` never dereferences a null
pointer (it yields `some _`). -/
theorem cell_tag_correspondence {V E S : Type} [Inhabited E]
    (h hq : Heap V) (v : V) (e : E) (m m2 : MutableResult V E)
    (f : V → V) (func : V → S → S) (s : S)
    (hm : m.Inv) (hm2 : m2.Inv) (h2 : m2.IsSuccess = true) :
    (MutableResult.Success h v : MutableResult V E × Heap V).1.Inv ∧
    (MutableResult.Failure e : MutableResult V E).Inv ∧
    (m.InPlaceBind hq f).1.Inv ∧
    ((m.ReadOnlyBind hq func s).1).1.Inv ∧
    m2.InPlaceBindCount f = 1 ∧
    m2.ReadOnlyBindCount = 1 ∧
    (m2.Value hq).isSome = true := by
  have hsome : m2.mValue.isSome = true := by
    have : (m2.mValue.isSome : Bool) = m2.mIsSuccess := hm2
    rw [this]; exact h2
  refine ⟨rfl, rfl, ?_, ?_, ?_, ?_, ?_⟩
  · rw [inPlaceBind_fst m hq f]; exact hm
  · rw [congrArg Prod.fst (readOnlyBind_fst m hq func s)]; exact hm
  · simp [MutableResult.InPlaceBindCount, hsome, show m2.mIsSuccess = true from h2]
  · simp [MutableResult.ReadOnlyBindCount, hsome, show m2.mIsSuccess = true from h2]
  · unfold MutableResult.Value
    rcases hv : m2.mValue with _ | a
    · rw [hv] at hsome; simp at hsome
    · simp

/-- Witness for C10: `m = Failure "x"`, `m2 = Success 3` (both satisfy
the correspondence; `m2` is success-tagged), with concrete callbacks and
external state. -/
theorem cell_tag_correspondence_witness :
    ((MutableResult.Success Heap.empty 3 :
        MutableResult Nat String × Heap Nat).1.Inv ∧
      (MutableResult.Failure "err" : MutableResult Nat String).Inv ∧
      ((MutableResult.Failure "x" : MutableResult Nat String).InPlaceBind
          Heap.empty (fun v => v + 1)).1.Inv ∧
      (((MutableResult.Failure "x" :
            MutableResult Nat String).ReadOnlyBind Heap.empty
          (fun v s => v + s) 0).1).1.Inv ∧
      (MutableResult.Success Heap.empty 3 :
          MutableResult Nat String × Heap Nat).1.InPlaceBindCount
          (fun v => v + 1) = 1 ∧
      (MutableResult.Success Heap.empty 3 :
          MutableResult Nat String × Heap Nat).1.ReadOnlyBindCount = 1 ∧
      ((MutableResult.Success Heap.empty 3 :
          MutableResult Nat String × Heap Nat).1.Value
          Heap.empty).isSome = true) := by
  have h := cell_tag_correspondence (S := Nat) Heap.empty Heap.empty 3 "err"
    (MutableResult.Failure "x")
    (MutableResult.Success Heap.empty 3 :
      MutableResult Nat String × Heap Nat).1
    (fun v => v + 1) (fun v s => v + s) 0
    (by decide) (by decide) (by decide)
  exact h
